import Mathlib

/-!
Shallow embedding of `github.com/jghiloni/prometheus-remote-write/writer`
(files `writer/impl.go`, `writer/outputs.go`, `writer/writer.go`,
`writer/constants.go`).

Modelling conventions:
* Go `float64` payloads are only ever copied by this code (never computed
  with), so they are modelled by `Rat`, a computable type with decidable
  equality.
* Go nil pointers are modelled by `Option`; protobuf getters that return a
  zero value on a nil receiver are modelled by explicit `get…` functions.
* External collaborators (the gatherers, the marshaller of
  `prompb.WriteRequest`, `snappy.Encode`, the gzip deflate transform, the
  HTTP request constructor and the HTTP client) are modelled as function
  parameters / record fields: the Go code treats them as black boxes and
  only inspects success vs. error.
-/

/-- Go `float64` values: only copied by this library, modelled as `Rat`. -/
abbrev Float64 := Rat

/-! ## The dto (protobuf client model) input types, as consumed by impl.go -/

/-- `dto.LabelPair`: a metric label. -/
structure dto.LabelPair where
  name : String
  value : String
deriving DecidableEq

/-- `timestamppb.Timestamp`: seconds since the Unix epoch plus a
nanosecond part (an `int32` in protobuf; valid messages keep it in
`[0, 10^9)`). -/
structure dto.Timestamp where
  seconds : Int
  nanos : Int
deriving DecidableEq

/-- `dto.Exemplar`: labels, a value, and an optional timestamp. -/
structure dto.Exemplar where
  label : List dto.LabelPair
  value : Float64
  timestamp : Option dto.Timestamp
deriving DecidableEq

/-- `dto.Gauge`: carries only a value (no exemplar field, hence no
`GetExemplar` method). -/
structure dto.Gauge where
  value : Float64
deriving DecidableEq

/-- `dto.Counter`: value, optional exemplar, optional creation timestamp.
Among the scalar variants, only `*dto.Counter` has a `GetExemplar` method. -/
structure dto.Counter where
  value : Float64
  exemplar : Option dto.Exemplar
  createdTimestamp : Option dto.Timestamp
deriving DecidableEq

/-- `dto.Untyped`: carries only a value. -/
structure dto.Untyped where
  value : Float64
deriving DecidableEq

/-- `dto.BucketSpan`: offset (`int32`) and run length (`uint32`). -/
structure dto.BucketSpan where
  offset : Int
  length : Nat
deriving DecidableEq

/-- `dto.Histogram`: the fields of the native/sparse representation read by
`getTimeseries` (classic-bucket fields are never read by impl.go and are
omitted). -/
structure dto.Histogram where
  sampleSum : Float64
  schema : Int
  zeroThreshold : Float64
  negativeSpan : List dto.BucketSpan
  negativeDelta : List Int
  negativeCount : List Float64
  positiveSpan : List dto.BucketSpan
  positiveDelta : List Int
  positiveCount : List Float64
  createdTimestamp : Option dto.Timestamp
  exemplars : List dto.Exemplar
deriving DecidableEq

/-- `dto.Metric`: label pairs, at most one payload variant, and an
observation timestamp in milliseconds (`GetTimestampMs`, 0 when absent).
The `Summary` variant is never consulted by impl.go (its switch has no
summary case); a metric whose four modelled variants are all `none`
represents a summary-only or empty metric. -/
structure dto.Metric where
  label : List dto.LabelPair
  gauge : Option dto.Gauge
  counter : Option dto.Counter
  untyped : Option dto.Untyped
  histogram : Option dto.Histogram
  timestampMs : Int
deriving DecidableEq

/-- `dto.MetricFamily`: name, help, type enum value, unit, and the list of
metric instances (`GetMetric`, the nil slice modelled as `[]`). -/
structure dto.MetricFamily where
  name : String
  help : String
  type : Int
  unit : String
  metric : List dto.Metric
deriving DecidableEq

/-! ## The prompb (remote-write wire) output types, as built by impl.go -/

/-- `prompb.Label`. -/
structure prompb.Label where
  name : String
  value : String
deriving DecidableEq

/-- `prompb.Sample`. -/
structure prompb.Sample where
  value : Float64
  timestamp : Int
deriving DecidableEq

/-- `prompb.Exemplar`. -/
structure prompb.Exemplar where
  labels : List prompb.Label
  value : Float64
  timestamp : Int
deriving DecidableEq

/-- `prompb.BucketSpan`. -/
structure prompb.BucketSpan where
  offset : Int
  length : Nat
deriving DecidableEq

/-- `prompb.Histogram`, restricted to the fields impl.go populates. -/
structure prompb.Histogram where
  sum : Float64
  schema : Int
  zeroThreshold : Float64
  negativeSpans : List prompb.BucketSpan
  negativeDeltas : List Int
  negativeCounts : List Float64
  positiveSpans : List prompb.BucketSpan
  positiveDeltas : List Int
  positiveCounts : List Float64
  timestamp : Int
deriving DecidableEq

/-- `prompb.TimeSeries`. -/
structure prompb.TimeSeries where
  labels : List prompb.Label
  samples : List prompb.Sample
  exemplars : List prompb.Exemplar
  histograms : List prompb.Histogram
deriving DecidableEq

/-- `prompb.MetricMetadata`. -/
structure prompb.MetricMetadata where
  type : Int
  metricFamilyName : String
  help : String
  unit : String
deriving DecidableEq

/-- `prompb.WriteRequest`. -/
structure prompb.WriteRequest where
  timeseries : List prompb.TimeSeries
  metadata : List prompb.MetricMetadata
deriving DecidableEq

/-! ## Timestamp conversion (Go `time.Unix(...).UnixMilli()`) -/

/-- Protobuf getter: a nil `*timestamppb.Timestamp` reads as seconds 0. -/
def dto.tsGetSeconds : Option dto.Timestamp → Int
  | some t => t.seconds
  | none => 0

/-- Protobuf getter: a nil `*timestamppb.Timestamp` reads as nanos 0. -/
def dto.tsGetNanos : Option dto.Timestamp → Int
  | some t => t.nanos
  | none => 0

/-- Go `time.Unix(sec, nsec)` normalisation: bring `nsec` into
`[0, 10^9)` using Go's truncating integer division, adjusting `sec`. -/
def timeUnixNorm (sec nsec : Int) : Int × Int :=
  if nsec < 0 ∨ 1000000000 ≤ nsec then
    let n := Int.tdiv nsec 1000000000
    let sec := sec + n
    let nsec := nsec - n * 1000000000
    if nsec < 0 then (sec - 1, nsec + 1000000000) else (sec, nsec)
  else (sec, nsec)

/-- `t.GetTimestamp().AsTime().UnixMilli()`: normalise as `time.Unix`
does, then `unixSec*1000 + nsec/10^6` (the nanosecond part is in
`[0, 10^9)` after normalisation, so the division truncates). -/
def asTimeUnixMilli (t : Option dto.Timestamp) : Int :=
  let p := timeUnixNorm (dto.tsGetSeconds t) (dto.tsGetNanos t)
  p.1 * 1000 + Int.tdiv p.2 1000000

/-! ## impl.go conversion helpers -/

/-- Protobuf getter: labels of a possibly-nil `*dto.Exemplar`. -/
def dto.exGetLabel : Option dto.Exemplar → List dto.LabelPair
  | some e => e.label
  | none => []

/-- Protobuf getter: value of a possibly-nil `*dto.Exemplar`. -/
def dto.exGetValue : Option dto.Exemplar → Float64
  | some e => e.value
  | none => 0

/-- Protobuf getter: timestamp of a possibly-nil `*dto.Exemplar`. -/
def dto.exGetTimestamp : Option dto.Exemplar → Option dto.Timestamp
  | some e => e.timestamp
  | none => none

/-- `convertLabels` (impl.go): map each `dto.LabelPair` to a
`prompb.Label` verbatim, preserving order. -/
def convertLabels (dtoLabels : List dto.LabelPair) : List prompb.Label :=
  dtoLabels.map fun lp => { name := lp.name, value := lp.value }

/-- `convertExemplar` (impl.go): copy labels and value, convert the
timestamp with `AsTime().UnixMilli()`. The argument is a possibly-nil
pointer: all three getters tolerate nil. -/
def convertExemplar (e : Option dto.Exemplar) : prompb.Exemplar :=
  { labels := convertLabels (dto.exGetLabel e)
    value := dto.exGetValue e
    timestamp := asTimeUnixMilli (dto.exGetTimestamp e) }

/-- `convertBucketSpans` (impl.go). -/
def convertBucketSpans (spans : List dto.BucketSpan) : List prompb.BucketSpan :=
  spans.map fun s => { offset := s.offset, length := s.length }

/-- The dynamic value held by the `samplerMetric any` variable after the
type switch in `getTimeseries`: one of the three scalar payloads. -/
inductive Sampler where
  | gauge (g : dto.Gauge)
  | counter (c : dto.Counter)
  | untyped (u : dto.Untyped)
deriving DecidableEq

/-- `GetValue` through the `valued` interface: all three scalar types
have it, so the `samplerMetric.(valued)` assertion always succeeds. -/
def Sampler.getValue : Sampler → Float64
  | .gauge g => g.value
  | .counter c => c.value
  | .untyped u => u.value

/-- The switch in `getTimeseries` (impl.go lines 131-143): probe gauge,
counter, untyped, histogram in that fixed order; the first non-nil wins.
Returns the pair (`samplerMetric`, `histogram`). -/
def samplerAndHistogram (m : dto.Metric) : Option Sampler × Option dto.Histogram :=
  match m.gauge with
  | some g => (some (.gauge g), none)
  | none =>
    match m.counter with
    | some c => (some (.counter c), none)
    | none =>
      match m.untyped with
      | some u => (some (.untyped u), none)
      | none =>
        match m.histogram with
        | some h => (none, some h)
        | none => (none, none)

/-- The loop body of `getTimeseries` (impl.go lines 127-186) for one
metric instance. Notes tied to the Go dynamic type tests:
* `samplerMetric.(valued)` succeeds for gauge, counter and untyped, so a
  matched scalar always yields exactly one sample;
* `samplerMetric.(hasExemplar)` is a type assertion: it succeeds exactly
  when the dynamic type is `*dto.Counter` (the only scalar with a
  `GetExemplar` method), regardless of whether the exemplar pointer is
  nil — a counter therefore always contributes `convertExemplar` of its
  (possibly nil) exemplar. -/
def metricToSeries (family : dto.MetricFamily) (m : dto.Metric) : prompb.TimeSeries :=
  let prompbLabels := convertLabels m.label ++ [{ name := "__name__", value := family.name }]
  let sh := samplerAndHistogram m
  let samples : List prompb.Sample :=
    match sh.1 with
    | some v => [{ value := v.getValue, timestamp := m.timestampMs }]
    | none => []
  let exemplars : List prompb.Exemplar :=
    match sh.1 with
    | some (.counter c) => [convertExemplar c.exemplar]
    | _ => []
  match sh.2 with
  | some histogram =>
    { labels := prompbLabels
      samples := []
      exemplars := histogram.exemplars.map (fun e => convertExemplar (some e))
      histograms := [{ sum := histogram.sampleSum
                       schema := histogram.schema
                       zeroThreshold := histogram.zeroThreshold
                       negativeSpans := convertBucketSpans histogram.negativeSpan
                       negativeDeltas := histogram.negativeDelta
                       negativeCounts := histogram.negativeCount
                       positiveSpans := convertBucketSpans histogram.positiveSpan
                       positiveDeltas := histogram.positiveDelta
                       positiveCounts := histogram.positiveCount
                       timestamp := asTimeUnixMilli histogram.createdTimestamp }] }
  | none =>
    { labels := prompbLabels
      samples := samples
      exemplars := exemplars
      histograms := [] }

/-- `getTimeseries` (impl.go): nil metric slice yields nil, otherwise one
`prompb.TimeSeries` per metric instance, in order. -/
def getTimeseries (family : dto.MetricFamily) : List prompb.TimeSeries :=
  match family.metric with
  | [] => []
  | _ => family.metric.map (metricToSeries family)

/-! ## Errors (constants.go plus the error values produced in impl.go and
outputs.go); `Err.message` mirrors each Go error's `Error()` string. -/

/-- The Go `error` values observable through `WriteMetrics`:
`ErrNilContext` and `ErrNoGatherersDefined` (constants.go), errors
propagated verbatim from collaborators (gather, marshal, compress,
request construction, transport), and the non-2xx error built at
impl.go line 89. -/
inductive Err where
  | nilContext
  | noGatherersDefined
  | external (msg : String)
  | remoteRejected (status : String)
deriving DecidableEq

/-- The `Error()` string of each modelled error; the non-2xx branch uses
`fmt.Errorf("expected 2xx HTTP code, but got %s", resp.Status)`. -/
def Err.message : Err → String
  | .nilContext => "nil context passed"
  | .noGatherersDefined => "no gatherers were defined"
  | .external msg => msg
  | .remoteRejected status => "expected 2xx HTTP code, but got " ++ status

/-! ## Compression (outputs.go)

`Compression` is a Go `int` (`None = 0`, `Snappy = 1`, `Gzip = 2`); any
other value falls into the switch's default branch. The external
primitives — `snappy.Encode` and the gzip transform produced by
`gzip.NewWriter` + `Write` + `Close` — are parameters. -/

/-- `Compression` (writer.go): an integer enumeration. -/
abbrev Compression := Int

/-- The `None` compression variant (value 0). -/
def Compression.NoneC : Compression := 0

/-- The `Snappy` compression variant (value 1). -/
def Compression.SnappyC : Compression := 1

/-- The `Gzip` compression variant (value 2). -/
def Compression.GzipC : Compression := 2

/-- `bytes.Buffer` with its `Write` method. Per the Go contract of
`(*bytes.Buffer).Write`, the returned error is always nil; the fallible
signature is kept so the caller's error check is modelled faithfully. -/
structure Buffer where
  data : List Nat

/-- `(*bytes.Buffer).Write`: appends and never fails. -/
def Buffer.write (b : Buffer) (p : List Nat) : Except Err (Buffer × Nat) :=
  .ok ({ data := b.data ++ p }, p.length)

/-- `Compression.Compress` (outputs.go lines 66-85). `snappyEncode`
models `snappy.Encode(nil, ·)` (total: it returns no error);
`gzipDeflate` models the bytes the gzip writer emits into its underlying
writer for the given input over `Write` + `Close`. The gzip branch writes
into an in-memory `bytes.Buffer` and checks the write's error. -/
def Compression.Compress (snappyEncode gzipDeflate : List Nat → List Nat)
    (e : Compression) (data : List Nat) : Except Err (List Nat) :=
  if e = Compression.NoneC then .ok data
  else if e = Compression.SnappyC then .ok (snappyEncode data)
  else if e = Compression.GzipC then
    let buf : Buffer := { data := [] }
    match buf.write (gzipDeflate data) with
    | .error err => .error err
    | .ok (buf, _) => .ok buf.data
  else .error (.external "unsupported encoding")

/-! ## The write orchestrator (impl.go `WriteMetrics`)

The writer's collaborators are modelled as record fields:
* `gatherers` — only its length is consulted by `WriteMetrics` itself;
* `gatherResult` — the outcome of `w.gatherers.Gather()`;
* `marshal` — `w.format.Marshal` (Protobuf or JSON, both external);
* `compress` — `w.encoding.Compress` (instantiable by
  `Compression.Compress` with the codec primitives fixed);
* `newRequest` — `http.NewRequestWithContext(ctx, POST, w.targetURL, body)`;
* `doRequest` — `w.hc.Do` (the transport), yielding a `Response`.
Header mutation (lines 78-80) does not affect any value `WriteMetrics`
returns and is not modelled. -/

/-- `http.Request` as far as impl.go observes it: the body handed to the
transport. -/
structure Request where
  body : List Nat
deriving DecidableEq

/-- `http.Response` as far as impl.go observes it: `StatusCode` and the
`Status` text. -/
structure Response where
  statusCode : Int
  status : String
deriving DecidableEq

/-- The `writerImpl` receiver together with its collaborators' behaviour
for one call. -/
structure writerImpl where
  gatherers : List Unit
  gatherResult : Except Err (List dto.MetricFamily)
  marshal : prompb.WriteRequest → Except Err (List Nat)
  compress : List Nat → Except Err (List Nat)
  newRequest : List Nat → Except Err Request
  doRequest : Request → Except Err Response

/-- The metadata record built for one family (impl.go lines 48-53). -/
def familyMetadata (f : dto.MetricFamily) : prompb.MetricMetadata :=
  { type := f.type
    metricFamilyName := f.name
    help := f.help
    unit := f.unit }

/-- The `prompb.WriteRequest` assembled by the loop at impl.go lines
47-61: metadata and time series accumulated per family, in gather
order. -/
def buildWriteRequest (metricFamilies : List dto.MetricFamily) : prompb.WriteRequest :=
  { timeseries := metricFamilies.flatMap getTimeseries
    metadata := metricFamilies.map familyMetadata }

/-- `writerImpl.WriteMetrics` (impl.go lines 26-93): the full pipeline.
`ctx` is `none` for a nil `context.Context`. Returns the pair Go returns:
the count and the (optional) error. -/
def writerImpl.WriteMetrics (w : writerImpl) (ctx : Option Unit) : Nat × Option Err :=
  if ctx.isNone then (0, some .nilContext)
  else if w.gatherers.length = 0 then (0, some .noGatherersDefined)
  else
    match w.gatherResult with
    | .error e => (0, some e)
    | .ok metricFamilies =>
      if metricFamilies.length = 0 then (0, none)
      else
        let wr := buildWriteRequest metricFamilies
        match w.marshal wr with
        | .error e => (0, some e)
        | .ok uncompressed =>
          match w.compress uncompressed with
          | .error e => (0, some e)
          | .ok compressed =>
            match w.newRequest compressed with
            | .error e => (0, some e)
            | .ok req =>
              match w.doRequest req with
              | .error e => (0, some e)
              | .ok resp =>
                if resp.statusCode < 200 ∨ 299 < resp.statusCode then
                  (0, some (.remoteRejected resp.status))
                else
                  (wr.timeseries.length, none)

/-! ## Helper lemmas -/

/-- Each family contributes exactly one series per metric instance. -/
theorem getTimeseries_length (f : dto.MetricFamily) :
    (getTimeseries f).length = f.metric.length := by
  unfold getTimeseries
  cases h : f.metric <;> simp [h]

/-- The assembled request carries one series per instance over all
families. -/
theorem buildWriteRequest_length (fams : List dto.MetricFamily) :
    (buildWriteRequest fams).timeseries.length =
      (fams.map (fun f => f.metric.length)).sum := by
  unfold buildWriteRequest
  induction fams with
  | nil => simp
  | cons f rest ih => simp [List.flatMap_cons, getTimeseries_length, ih]

/-- The type switch never selects a scalar and a histogram at once. -/
theorem samplerAndHistogram_not_both (m : dto.Metric) :
    (samplerAndHistogram m).1 = none ∨ (samplerAndHistogram m).2 = none := by
  unfold samplerAndHistogram
  cases m.gauge <;> cases m.counter <;> cases m.untyped <;> cases m.histogram <;> simp

/-- C7: the produced series' labels are the instance labels converted
verbatim in order, with the synthesized `__name__` label (value: the
family name) appended as the final element. -/
theorem metricToSeries_labels (f : dto.MetricFamily) (m : dto.Metric) :
    (metricToSeries f m).labels =
      m.label.map (fun lp => ({ name := lp.name, value := lp.value } : prompb.Label))
        ++ [{ name := "__name__", value := f.name }] := by
  unfold metricToSeries
  cases h : (samplerAndHistogram m).2 <;> simp [h, convertLabels]

/-- C4: a series never carries samples and histogram entries at once; the
histogram list has exactly one entry when the switch selected a
histogram (and none otherwise), and the sample list has exactly one
entry when the switch selected a scalar (and none otherwise). -/
theorem metricToSeries_samples_xor_histograms (f : dto.MetricFamily) (m : dto.Metric) :
    ((metricToSeries f m).samples = [] ∨ (metricToSeries f m).histograms = []) ∧
    (metricToSeries f m).histograms.length =
      (match (samplerAndHistogram m).2 with | some _ => 1 | none => 0) ∧
    (metricToSeries f m).samples.length =
      (match (samplerAndHistogram m).1 with | some _ => 1 | none => 0) := by
  rcases m with ⟨lab, g, c, u, h, ts⟩
  cases g <;> cases c <;> cases u <;> cases h <;>
    simp [metricToSeries, samplerAndHistogram]

/-- C8: the `None` variant returns its input unchanged, and the `Snappy`
variant returns the snappy encoding; neither can return an error. -/
theorem compress_none_snappy (snappyEncode gzipDeflate : List Nat → List Nat)
    (data : List Nat) :
    Compression.Compress snappyEncode gzipDeflate Compression.NoneC data = .ok data ∧
    Compression.Compress snappyEncode gzipDeflate Compression.SnappyC data =
      .ok (snappyEncode data) := by
  constructor <;>
    simp [Compression.Compress, Compression.NoneC, Compression.SnappyC]

/-- C10: the `Gzip` variant always succeeds — its error branch checks the
result of a write into an in-memory `bytes.Buffer`, whose `Write` never
returns an error — so all three defined variants are total. -/
theorem compress_gzip_never_fails (snappyEncode gzipDeflate : List Nat → List Nat)
    (data : List Nat) :
    Compression.Compress snappyEncode gzipDeflate Compression.GzipC data =
      .ok (gzipDeflate data) := by
  simp [Compression.Compress, Compression.NoneC, Compression.SnappyC,
    Compression.GzipC, Buffer.write]

/-! ## C3: scalar samples and exemplars -/

/-- A counter instance that carries no exemplar. -/
def counterNoExemplar : dto.Metric :=
  { label := []
    gauge := none
    counter := some { value := 1, exemplar := none, createdTimestamp := none }
    untyped := none
    histogram := none
    timestampMs := 5 }

/-- A one-instance family holding `counterNoExemplar`. -/
def counterNoExemplarFamily : dto.MetricFamily :=
  { name := "c", help := "", type := 0, unit := "", metric := [counterNoExemplar] }

/-- C3 counterexample: a counter that carries no exemplar nevertheless
yields one exemplar (the conversion of a nil pointer: empty labels,
value 0, timestamp 0), because the Go `hasExemplar` type assertion
tests the dynamic type, not the presence of the exemplar. The claim
demands zero exemplars here. -/
theorem metricToSeries_counter_without_exemplar :
    counterNoExemplar.counter.bind dto.Counter.exemplar = none ∧
    (metricToSeries counterNoExemplarFamily counterNoExemplar).exemplars.length = 1 := by
  constructor
  · rfl
  · decide

/-- C3 amended: a scalar instance yields exactly one sample carrying the
scalar's value and the instance's timestamp; its exemplar list is empty
for gauge and untyped scalars (their types carry no exemplar), while a
counter always yields exactly one exemplar — the conversion of its
possibly-nil exemplar pointer — whether or not an exemplar is present. -/
theorem metricToSeries_scalar_sample_exemplars (f : dto.MetricFamily) (m : dto.Metric)
    (s : Sampler) (hs : (samplerAndHistogram m).1 = some s) :
    (metricToSeries f m).samples = [{ value := s.getValue, timestamp := m.timestampMs }] ∧
    (metricToSeries f m).exemplars =
      (match s with
        | .counter c => [convertExemplar c.exemplar]
        | _ => []) := by
  rcases samplerAndHistogram_not_both m with h2 | h2
  · rw [h2] at hs
    cases hs
  · simp only [metricToSeries, h2, hs]
    cases s <;> simp

/-- A counter instance that carries an exemplar. -/
def counterWithExemplar : dto.Metric :=
  { label := []
    gauge := none
    counter := some
      { value := 3
        exemplar := some { label := [{ name := "trace", value := "t1" }]
                           value := 2
                           timestamp := some { seconds := 1, nanos := 234500000 } }
        createdTimestamp := none }
    untyped := none
    histogram := none
    timestampMs := 9 }

/-- Witness for the amended C3 theorem at a concrete counter instance. -/
theorem metricToSeries_scalar_sample_exemplars_witness :
    (samplerAndHistogram counterWithExemplar).1 =
      some (.counter { value := 3
                       exemplar := some { label := [{ name := "trace", value := "t1" }]
                                          value := 2
                                          timestamp := some { seconds := 1, nanos := 234500000 } }
                       createdTimestamp := none }) ∧
    ((metricToSeries counterNoExemplarFamily counterWithExemplar).samples =
      [{ value := 3, timestamp := 9 }] ∧
     (metricToSeries counterNoExemplarFamily counterWithExemplar).exemplars =
      [convertExemplar (some { label := [{ name := "trace", value := "t1" }]
                               value := 2
                               timestamp := some { seconds := 1, nanos := 234500000 } })]) :=
  ⟨rfl, metricToSeries_scalar_sample_exemplars counterNoExemplarFamily counterWithExemplar _ rfl⟩

/-! ## C9: exemplar conversion and millisecond truncation -/

/-- Go's truncating remainder is strictly above `-b` for positive `b`. -/
theorem tmod_lower (a b : Int) (hb : 0 < b) : -b < Int.tmod a b := by
  rcases le_or_lt 0 a with h | h
  · have := Int.tmod_nonneg b h
    omega
  · have h2 : 0 ≤ -a := by omega
    have h3 := Int.tmod_nonneg b h2
    have h4 : Int.tmod (-a) b = -(Int.tmod a b) := by
      rw [Int.tmod_def, Int.tmod_def, Int.neg_tdiv]
      ring
    have h5 := Int.tmod_lt_of_pos (-a) hb
    omega

/-- For a nanosecond part in `[0, 10^9)`, the millisecond count
`s * 1000 + n / 10^6` (truncating division) is the floor of the total
nanosecond count over `10^6`. -/
theorem milli_floor (s n : Int) (h0 : 0 ≤ n) (h1 : n < 1000000000) :
    (s * 1000 + Int.tdiv n 1000000) * 1000000 ≤ s * 1000000000 + n ∧
    s * 1000000000 + n < (s * 1000 + Int.tdiv n 1000000) * 1000000 + 1000000 := by
  have hdm := Int.tdiv_add_tmod n 1000000
  have hm0 := Int.tmod_nonneg 1000000 h0
  have hm1 := Int.tmod_lt_of_pos n (show (0:Int) < 1000000 by norm_num)
  constructor <;> nlinarith

/-- For every `seconds`/`nanos` input (including nanosecond parts
outside `[0, 10^9)`, which `time.Unix` renormalises), the converted
millisecond count is the floor of the total nanosecond count over
`10^6`: sub-millisecond precision is discarded, never rounded up. -/
theorem asTimeUnixMilli_floor (ts : dto.Timestamp) :
    asTimeUnixMilli (some ts) * 1000000 ≤ ts.seconds * 1000000000 + ts.nanos ∧
    ts.seconds * 1000000000 + ts.nanos < asTimeUnixMilli (some ts) * 1000000 + 1000000 := by
  have hgoal : asTimeUnixMilli (some ts) =
      (timeUnixNorm ts.seconds ts.nanos).1 * 1000 +
        Int.tdiv (timeUnixNorm ts.seconds ts.nanos).2 1000000 := rfl
  rw [hgoal]
  unfold timeUnixNorm
  by_cases h : ts.nanos < 0 ∨ 1000000000 ≤ ts.nanos
  · rw [if_pos h]
    have hdm := Int.tdiv_add_tmod ts.nanos 1000000000
    have hub := Int.tmod_lt_of_pos ts.nanos (show (0:Int) < 1000000000 by norm_num)
    have hlb := tmod_lower ts.nanos 1000000000 (by norm_num)
    have hm_eq : ts.nanos - Int.tdiv ts.nanos 1000000000 * 1000000000 =
        Int.tmod ts.nanos 1000000000 := by linarith
    by_cases h2 : ts.nanos - Int.tdiv ts.nanos 1000000000 * 1000000000 < 0
    · rw [if_pos h2]
      dsimp only
      have hf := milli_floor (ts.seconds + Int.tdiv ts.nanos 1000000000 - 1)
        (ts.nanos - Int.tdiv ts.nanos 1000000000 * 1000000000 + 1000000000)
        (by omega) (by omega)
      have key : (ts.seconds + Int.tdiv ts.nanos 1000000000 - 1) * 1000000000 +
          (ts.nanos - Int.tdiv ts.nanos 1000000000 * 1000000000 + 1000000000) =
          ts.seconds * 1000000000 + ts.nanos := by ring
      constructor
      · linarith [hf.1]
      · linarith [hf.2]
    · rw [if_neg h2]
      dsimp only
      have hf := milli_floor (ts.seconds + Int.tdiv ts.nanos 1000000000)
        (ts.nanos - Int.tdiv ts.nanos 1000000000 * 1000000000)
        (by omega) (by omega)
      have key : (ts.seconds + Int.tdiv ts.nanos 1000000000) * 1000000000 +
          (ts.nanos - Int.tdiv ts.nanos 1000000000 * 1000000000) =
          ts.seconds * 1000000000 + ts.nanos := by ring
      constructor
      · linarith [hf.1]
      · linarith [hf.2]
  · rw [if_neg h]
    dsimp only
    exact milli_floor ts.seconds ts.nanos (by omega) (by omega)

/-- C9: exemplar conversion copies the label set (converted verbatim)
and the value, and converts the timestamp to millisecond resolution by
truncation: for every source timestamp, the produced millisecond count
`ms` satisfies `ms * 10^6 ≤ seconds * 10^9 + nanos < ms * 10^6 + 10^6`,
so sub-millisecond precision is discarded, never rounded up. -/
theorem convertExemplar_truncates (e : dto.Exemplar) (ts : dto.Timestamp)
    (hts : e.timestamp = some ts) :
    convertExemplar (some e) =
      { labels := convertLabels e.label
        value := e.value
        timestamp := asTimeUnixMilli (some ts) } ∧
    asTimeUnixMilli (some ts) * 1000000 ≤ ts.seconds * 1000000000 + ts.nanos ∧
    ts.seconds * 1000000000 + ts.nanos < asTimeUnixMilli (some ts) * 1000000 + 1000000 := by
  refine ⟨?_, asTimeUnixMilli_floor ts⟩
  simp only [convertExemplar, dto.exGetLabel, dto.exGetValue, dto.exGetTimestamp, hts]

/-- The exemplar used as the C9 witness: source timestamp 1.2345 s. -/
def exemplarAt1_2345 : dto.Exemplar :=
  { label := [], value := 5, timestamp := some { seconds := 1, nanos := 234500000 } }

/-- Witness for C9: 1.2345 seconds converts to 1234 ms, not 1235. -/
theorem convertExemplar_truncates_witness :
    exemplarAt1_2345.timestamp = some { seconds := 1, nanos := 234500000 } ∧
    (convertExemplar (some exemplarAt1_2345)).timestamp = 1234 :=
  ⟨rfl, by
    have h := convertExemplar_truncates exemplarAt1_2345
      { seconds := 1, nanos := 234500000 } rfl
    rw [h.1]
    decide⟩

/-! ## WriteMetrics case analysis -/

/-- Every run of `WriteMetrics` either fails with a zero count, or
succeeds returning the total instance count of the gathered families. -/
theorem writeMetrics_cases (w : writerImpl) (ctx : Option Unit) :
    (∃ e, w.WriteMetrics ctx = (0, some e)) ∨
    (∃ fams, w.gatherResult = .ok fams ∧
      w.WriteMetrics ctx = ((fams.map (fun f => f.metric.length)).sum, none)) := by
  cases ctx with
  | none => exact .inl ⟨.nilContext, rfl⟩
  | some u =>
    simp only [writerImpl.WriteMetrics, Option.isNone_some, Bool.false_eq_true, if_false]
    by_cases hgl : w.gatherers.length = 0
    · rw [if_pos hgl]
      exact .inl ⟨.noGatherersDefined, rfl⟩
    · rw [if_neg hgl]
      cases hgr : w.gatherResult with
      | error e => exact .inl ⟨e, rfl⟩
      | ok fams =>
        dsimp only
        by_cases hf : fams.length = 0
        · rw [if_pos hf]
          refine .inr ⟨fams, rfl, ?_⟩
          rw [List.length_eq_zero] at hf
          subst hf
          rfl
        · rw [if_neg hf]
          cases hm : w.marshal (buildWriteRequest fams) with
          | error e => exact .inl ⟨e, rfl⟩
          | ok uncompressed =>
            dsimp only
            cases hc : w.compress uncompressed with
            | error e => exact .inl ⟨e, rfl⟩
            | ok compressed =>
              dsimp only
              cases hr : w.newRequest compressed with
              | error e => exact .inl ⟨e, rfl⟩
              | ok req =>
                dsimp only
                cases hd : w.doRequest req with
                | error e => exact .inl ⟨e, rfl⟩
                | ok resp =>
                  dsimp only
                  by_cases hst : resp.statusCode < 200 ∨ 299 < resp.statusCode
                  · rw [if_pos hst]
                    exact .inl ⟨.remoteRejected resp.status, rfl⟩
                  · rw [if_neg hst]
                    exact .inr ⟨fams, rfl, by rw [buildWriteRequest_length]⟩

/-- C1: whenever `WriteMetrics` returns without an error, the returned
count equals the total number of metric instances across all gathered
families (one series per instance; a family with zero instances
contributes none). -/
theorem writeMetrics_success_count (w : writerImpl) (ctx : Option Unit)
    (fams : List dto.MetricFamily) (hg : w.gatherResult = .ok fams)
    (hok : (w.WriteMetrics ctx).2 = none) :
    (w.WriteMetrics ctx).1 = (fams.map (fun f => f.metric.length)).sum := by
  rcases writeMetrics_cases w ctx with ⟨e, he⟩ | ⟨fams2, hg2, hr⟩
  · rw [he] at hok
    simp at hok
  · rw [hg] at hg2
    cases hg2
    rw [hr]

/-- A gauge instance used by the success-path witnesses. -/
def gaugeMetric : dto.Metric :=
  { label := [{ name := "l", value := "v" }]
    gauge := some { value := 2 }
    counter := none
    untyped := none
    histogram := none
    timestampMs := 3 }

/-- A two-instance family used by the success-path witnesses. -/
def successFamily : dto.MetricFamily :=
  { name := "g", help := "h", type := 1, unit := "", metric := [gaugeMetric, counterNoExemplar] }

/-- A writer whose collaborators all succeed (status 204). -/
def successWriter : writerImpl :=
  { gatherers := [()]
    gatherResult := .ok [successFamily]
    marshal := fun _ => .ok [1]
    compress := fun d => .ok d
    newRequest := fun b => .ok { body := b }
    doRequest := fun _ => .ok { statusCode := 204, status := "204 No Content" } }

/-- Witness for C1: two instances in one family, count 2. -/
theorem writeMetrics_success_count_witness :
    successWriter.gatherResult = .ok [successFamily] ∧
    (successWriter.WriteMetrics (some ())).2 = none ∧
    (successWriter.WriteMetrics (some ())).1 =
      ([successFamily].map (fun f => f.metric.length)).sum :=
  ⟨rfl, rfl, writeMetrics_success_count successWriter (some ()) [successFamily] rfl rfl⟩

/-- C2: on every failure branch — nil context, no gatherers, gather
failure, marshal failure, compression failure, request-construction or
transport failure, non-2xx status — the returned count is 0; a nonzero
count is never paired with an error. -/
theorem writeMetrics_failure_zero (w : writerImpl) (ctx : Option Unit)
    (h : (w.WriteMetrics ctx).2 ≠ none) :
    (w.WriteMetrics ctx).1 = 0 := by
  rcases writeMetrics_cases w ctx with ⟨e, he⟩ | ⟨fams, _, hr⟩
  · rw [he]
  · rw [hr] at h
    simp at h

/-- Witness for C2: a nil context fails and returns count 0. -/
theorem writeMetrics_failure_zero_witness :
    (successWriter.WriteMetrics none).2 ≠ none ∧
    (successWriter.WriteMetrics none).1 = 0 :=
  ⟨by decide, writeMetrics_failure_zero successWriter none (by decide)⟩

/-- C5: a successful gather of zero families yields `(0, none)`. The
writer's marshal, compress, request-construction and transport
behaviours are universally quantified here, so none of them can affect
(or be needed for) this outcome: nothing is serialized, compressed or
transmitted. -/
theorem writeMetrics_empty_gather (w : writerImpl) (ctx : Option Unit)
    (hctx : ctx.isSome) (hgs : w.gatherers ≠ [])
    (hg : w.gatherResult = .ok []) :
    w.WriteMetrics ctx = (0, none) := by
  cases ctx with
  | none => simp at hctx
  | some u =>
    simp [writerImpl.WriteMetrics, hg, hgs]

/-- A writer whose downstream collaborators would all fail if invoked,
but whose gather yields zero families. -/
def emptyGatherWriter : writerImpl :=
  { gatherers := [()]
    gatherResult := .ok []
    marshal := fun _ => .error (.external "marshal must not run")
    compress := fun _ => .error (.external "compress must not run")
    newRequest := fun _ => .error (.external "request must not run")
    doRequest := fun _ => .error (.external "transport must not run") }

/-- Witness for C5: empty gather is a no-op success even with failing
downstream collaborators. -/
theorem writeMetrics_empty_gather_witness :
    (some () : Option Unit).isSome = true ∧
    emptyGatherWriter.gatherers ≠ [] ∧
    emptyGatherWriter.gatherResult = .ok [] ∧
    emptyGatherWriter.WriteMetrics (some ()) = (0, none) :=
  ⟨rfl, by decide, rfl,
    writeMetrics_empty_gather emptyGatherWriter (some ()) rfl (by decide) rfl⟩

/-- C6: when every step up to the transport succeeds, a response status
outside [200,299] makes `WriteMetrics` return `(0, remoteRejected)` with
an error message that contains the response's status text as a suffix,
while any status inside [200,299] avoids that error branch. -/
theorem writeMetrics_response_status (w : writerImpl) (ctx : Option Unit)
    (fams : List dto.MetricFamily) (uncompressed compressed : List Nat)
    (req : Request) (resp : Response)
    (hctx : ctx.isSome) (hgs : w.gatherers ≠ [])
    (hg : w.gatherResult = .ok fams) (hf : fams ≠ [])
    (hm : w.marshal (buildWriteRequest fams) = .ok uncompressed)
    (hc : w.compress uncompressed = .ok compressed)
    (hr : w.newRequest compressed = .ok req)
    (hd : w.doRequest req = .ok resp) :
    (¬(200 ≤ resp.statusCode ∧ resp.statusCode ≤ 299) →
      w.WriteMetrics ctx = (0, some (.remoteRejected resp.status)) ∧
      ∃ pre, (Err.remoteRejected resp.status).message = pre ++ resp.status) ∧
    ((200 ≤ resp.statusCode ∧ resp.statusCode ≤ 299) →
      (w.WriteMetrics ctx).2 = none) := by
  cases ctx with
  | none => simp at hctx
  | some u =>
    have hgl : ¬(w.gatherers.length = 0) := by simpa using hgs
    have hfl : ¬(fams.length = 0) := by simpa using hf
    simp only [writerImpl.WriteMetrics, Option.isNone_some, Bool.false_eq_true, if_false,
      hg, if_neg hgl, if_neg hfl, hm, hc, hr, hd]
    constructor
    · intro hbad
      rw [if_pos (by omega)]
      exact ⟨rfl, ⟨"expected 2xx HTTP code, but got ", rfl⟩⟩
    · intro hgood
      rw [if_neg (by omega)]

/-- A writer whose transport reports HTTP 500. -/
def rejectWriter : writerImpl :=
  { gatherers := [()]
    gatherResult := .ok [successFamily]
    marshal := fun _ => .ok [1]
    compress := fun d => .ok d
    newRequest := fun b => .ok { body := b }
    doRequest := fun _ => .ok { statusCode := 500, status := "500 Internal Server Error" } }

/-- Witness for C6: an HTTP 500 response rejects with the status text in
the error message. -/
theorem writeMetrics_response_status_witness :
    rejectWriter.WriteMetrics (some ()) =
      (0, some (.remoteRejected "500 Internal Server Error")) ∧
    ∃ pre, (Err.remoteRejected "500 Internal Server Error").message =
      pre ++ "500 Internal Server Error" :=
  (writeMetrics_response_status rejectWriter (some ()) [successFamily] [1] [1]
    { body := [1] } { statusCode := 500, status := "500 Internal Server Error" }
    rfl (by decide) rfl (by decide) rfl rfl rfl rfl).1 (by decide)
